import Mathlib

/-!
Shallow embedding of `src/script_translator.py` (repository OGTaudio).

The program is a two-stage pipeline: a transcription stage that runs an
external `whisper.cpp` process and reads a result text file, and a
translation stage that runs an external `ollama` process and captures its
standard output.  External effects (process outcomes, file contents,
wall-clock readings) are supplied by an explicit environment `Env`;
observable side effects (process invocations, console prints) are recorded
in a trace of events.  Python exceptions are modelled with `Except PyError`:
`subprocess.CalledProcessError` (non-zero exit) is the only exception the
source catches; a spawn failure (`OSError` family) and a missing result
file (`FileNotFoundError`) propagate.
-/

set_option autoImplicit false

namespace OGTaudio

/-- Outcome of a `subprocess.run` call: the process ran and exited zero
(with the given captured standard output), exited non-zero (Python raises
`subprocess.CalledProcessError`), or could not be spawned at all (Python
raises an `OSError` such as `FileNotFoundError`). -/
inductive ProcOutcome where
  | ok (stdout : String)
  | nonzeroExit
  | spawnFailure
  deriving DecidableEq, Repr

/-- Python exceptions that can escape the embedded functions. -/
inductive PyError where
  | notImplementedError (msg : String)
  | valueError (msg : String)
  | oSError
  | fileNotFoundError
  deriving DecidableEq, Repr

/-- Observable events of a run: an external process invocation (the full
argument vector passed to `subprocess.run`) or a console print. -/
inductive Event where
  | procCall (cmd : List String)
  | printed (msg : String)
  deriving DecidableEq, Repr

abbrev Trace := List Event

/-- The external world of one run: the outcome of the whisper process, the
outcome of the ollama process, the file system (an association list from
path to contents), and the two wall-clock readings taken by `translate`. -/
structure Env where
  whisperRun : ProcOutcome
  ollamaRun : ProcOutcome
  files : List (String × String)
  startTime : Int
  endTime : Int
  deriving Repr

/-- The `GameTranslator` object: the Job Configuration of the spec. -/
structure GameTranslator where
  pre_recorded : Bool
  transcription_model : String
  filepath : String
  input_language : String
  output_language : String
  elapsed_time : Int
  deriving DecidableEq, Repr

/-- `GameTranslator.__init__`: stores the parameters, lowercasing the two
language identifiers, and initialises `elapsed_time` to `0`. -/
def GameTranslator.init (transcription_model : String) (filepath : String)
    (prerecorded : Bool) (input_language : String) (output_language : String) :
    GameTranslator :=
  { pre_recorded := prerecorded
    transcription_model := transcription_model
    filepath := filepath
    input_language := input_language.toLower
    output_language := output_language.toLower
    elapsed_time := 0 }

def whisper_path : String := "./whisper.cpp/main"

def model_path : String := "./whisper.cpp/models/ggml-base.en.bin"

/-- Replace the leftmost non-overlapping occurrences of `old` by `new` in
a character list, the semantics of Python's `str.replace` for a non-empty
pattern.  The fuel argument (instantiated with the list's length) makes
the recursion structural; one unit of fuel is spent per character
consumed, and at least one character is consumed per step when `old` is
non-empty, so the fuel never runs out in `pyReplace` below. -/
def replaceFuel (old new : List Char) : Nat → List Char → List Char
  | _, [] => []
  | 0, s => s
  | fuel + 1, c :: rest =>
      if old.isPrefixOf (c :: rest) && !old.isEmpty then
        new ++ replaceFuel old new fuel ((c :: rest).drop old.length)
      else c :: replaceFuel old new fuel rest

/-- Python's `s.replace(old, new)` for the non-empty pattern the source
uses (the source only ever calls it with `old = ".wav.txt"`). -/
def pyReplace (s old new : String) : String :=
  if old = "" then s
  else ⟨replaceFuel old.data new.data s.data.length s.data⟩

/-- Python's `s.strip()`: the string with leading and trailing whitespace
removed. -/
def pyStrip (s : String) : String :=
  ⟨((s.data.dropWhile Char.isWhitespace).reverse.dropWhile Char.isWhitespace).reverse⟩

/-- The path of the result text file the transcription stage reads:
`self.filepath.replace(".wav.txt", ".txt")`. -/
def result_file (g : GameTranslator) : String :=
  pyReplace g.filepath ".wav.txt" ".txt"

/-- The argument vector passed to `subprocess.run` by
`whisper_cpp_transcription`. -/
def whisper_command (g : GameTranslator) : List String :=
  [whisper_path, "-m", model_path, "-f", g.filepath, "-l", g.input_language, "-otxt"]

/-- The argument vector passed to `subprocess.run` by `llama_translation`:
the prompt embeds the configured output language and the text. -/
def llama_command (g : GameTranslator) (text : String) : List String :=
  ["ollama", "run", "llama3",
    "Translate the following text to " ++ g.output_language ++ ": " ++ text]

def whisper_error_msg : String :=
  "Ошибка транскрипции с использованием whisper.cpp"

def llama_error_msg : String :=
  "Ошибка перевода с использованием LLaMA 3"

def unsupported_engine_msg : String :=
  "Поддерживается только модель whisper_cpp."

def not_implemented_msg : String :=
  "Прямая запись аудио не реализована в этой версии."

def transcription_failed_msg : String :=
  "Ошибка: Транскрипция не удалась."

/-- `GameTranslator.whisper_cpp_transcription`.  Raises
`NotImplementedError` when `pre_recorded` is false, before any process is
spawned.  Otherwise runs the whisper process: on non-zero exit the
`except subprocess.CalledProcessError` clause prints an error and the
method returns `""`; on a spawn failure the `OSError` is not caught and
propagates; on success it opens the result file (a missing file raises an
uncaught `FileNotFoundError`) and returns its stripped contents. -/
def whisper_cpp_transcription (g : GameTranslator) (env : Env) :
    Except PyError String × Trace :=
  if !g.pre_recorded then
    (.error (.notImplementedError not_implemented_msg), [])
  else
    match env.whisperRun with
    | .spawnFailure => (.error .oSError, [.procCall (whisper_command g)])
    | .nonzeroExit =>
        (.ok "", [.procCall (whisper_command g), .printed whisper_error_msg])
    | .ok _ =>
        match env.files.lookup (result_file g) with
        | none => (.error .fileNotFoundError, [.procCall (whisper_command g)])
        | some content => (.ok (pyStrip content), [.procCall (whisper_command g)])

/-- `GameTranslator.llama_translation`.  Runs the ollama process with the
translation prompt, capturing standard output: on success it returns the
stripped captured output; on non-zero exit the
`except subprocess.CalledProcessError` clause prints an error and the
method returns `""`; on a spawn failure the `OSError` is not caught and
propagates. -/
def llama_translation (g : GameTranslator) (text : String) (env : Env) :
    Except PyError String × Trace :=
  match env.ollamaRun with
  | .spawnFailure => (.error .oSError, [.procCall (llama_command g text)])
  | .nonzeroExit =>
      (.ok "", [.procCall (llama_command g text), .printed llama_error_msg])
  | .ok out => (.ok (pyStrip out), [.procCall (llama_command g text)])

/-- `GameTranslator.show_translator_info`: prints the configuration
summary; a pure trace of prints, no process is spawned. -/
def show_translator_info (g : GameTranslator) : Trace :=
  [.printed "****************************************",
   .printed ("Transcription model : " ++ g.transcription_model),
   .printed ("Using prerecorded audio file : " ++
      (if g.pre_recorded then g.filepath else "None")),
   .printed ("Input  language : " ++ g.input_language),
   .printed ("Output language : " ++ g.output_language),
   .printed "****************************************"]

/-- `GameTranslator.show_time`: prints the elapsed time. -/
def show_time (g : GameTranslator) : Trace :=
  [.printed ("Elapsed time: " ++ toString g.elapsed_time ++ " seconds")]

/-- `GameTranslator.translate`: records the start time, prints the
configuration, dispatches on `transcription_model` (raising `ValueError`
for any value other than `"whisper_cpp"`), short-circuits with `""` when
the transcription is empty, otherwise runs the translation stage, and only
then records the end time, writes `elapsed_time`, prints it and returns
the translation.  The returned `GameTranslator` is the object after the
run (its `elapsed_time` field may have been mutated). -/
def translate (g : GameTranslator) (env : Env) :
    Except PyError String × GameTranslator × Trace :=
  let info := show_translator_info g
  if g.transcription_model = "whisper_cpp" then
    match whisper_cpp_transcription g env with
    | (.error e, t) => (.error e, g, info ++ t)
    | (.ok text, t) =>
        if text = "" then
          (.ok "", g, info ++ t ++ [.printed transcription_failed_msg])
        else
          match llama_translation g text env with
          | (.error e, t2) => (.error e, g, info ++ t ++ t2)
          | (.ok translation, t2) =>
              let g2 := { g with elapsed_time := env.endTime - env.startTime }
              (.ok translation, g2, info ++ t ++ t2 ++ show_time g2)
  else
    (.error (.valueError unsupported_engine_msg), g, info)

/-- The `choices` list of the `--transcription_model` CLI argument. -/
def transcription_model_choices : List String := ["whisper_cpp"]

/-- The CLI arguments `main` collects via argparse. -/
structure CliArgs where
  file : String
  transcription_model : String
  pre_recorded : Bool
  input_language : String
  output_language : String
  deriving DecidableEq, Repr

/-- argparse validation of `--transcription_model`: parsing succeeds only
when the supplied value is among the declared `choices`. -/
def parse_transcription_model (s : String) : Option String :=
  if s ∈ transcription_model_choices then some s else none

/-- `main` up to the construction of the translator: argparse either
rejects the arguments (returns `none`, the process exits) or yields the
`GameTranslator` that `main` builds from them. -/
def main_translator (a : CliArgs) : Option GameTranslator :=
  match parse_transcription_model a.transcription_model with
  | none => none
  | some m =>
      some (GameTranslator.init m a.file a.pre_recorded
        a.input_language a.output_language)

/-- An event is an invocation of an external process. -/
def Event.isProcCall : Event → Bool
  | .procCall _ => true
  | .printed _ => false

/-- An event is an invocation of the ollama (translation) process. -/
def Event.isOllamaCall : Event → Bool
  | .procCall cmd => cmd.head? = some "ollama"
  | .printed _ => false

/-- The run reaches the translation stage and completes it without an
uncaught exception: the engine is recognized, the transcription stage
returns non-empty text, and the ollama process can at least be spawned
(only a spawn failure makes `llama_translation` raise).  This is exactly
the path of `translate` on which `elapsed_time` is assigned. -/
def completes_both_stages (g : GameTranslator) (env : Env) : Bool :=
  (g.transcription_model == "whisper_cpp") &&
    (match (whisper_cpp_transcription g env).1 with
     | .ok t => !(t == "")
     | .error _ => false) &&
    (match env.ollamaRun with
     | .spawnFailure => false
     | _ => true)

/-- A concrete translator configuration used to evaluate the pipeline at
specific inputs. -/
def sampleTranslator : GameTranslator :=
  GameTranslator.init "whisper_cpp" "audio.wav" true "English" "Russian"

/-- Environment where the whisper executable cannot be spawned. -/
def spawnFailEnv : Env :=
  { whisperRun := .spawnFailure, ollamaRun := .ok "hola",
    files := [], startTime := 0, endTime := 5 }

/-- Environment where both external processes exit non-zero. -/
def nonzeroExitEnv : Env :=
  { whisperRun := .nonzeroExit, ollamaRun := .nonzeroExit,
    files := [], startTime := 0, endTime := 5 }

/-- Environment where the whisper process succeeds but the expected result
file is absent. -/
def missingFileEnv : Env :=
  { whisperRun := .ok "", ollamaRun := .ok "hola",
    files := [], startTime := 0, endTime := 5 }

/-- Environment where both stages succeed: the result file holds
transcribed text with surrounding whitespace and ollama prints a
translation with surrounding whitespace. -/
def happyEnv : Env :=
  { whisperRun := .ok "", ollamaRun := .ok " Привет мир ",
    files := [("audio.wav", " Hello world ")], startTime := 2, endTime := 7 }

/-! ### Helper lemmas -/

theorem show_translator_info_filter_proc (g : GameTranslator) :
    List.filter Event.isProcCall (show_translator_info g) = [] := by
  simp [show_translator_info, Event.isProcCall, List.filter]

theorem show_translator_info_filter_ollama (g : GameTranslator) :
    List.filter Event.isOllamaCall (show_translator_info g) = [] := by
  simp [show_translator_info, Event.isOllamaCall, List.filter]

theorem show_time_filter_ollama (g : GameTranslator) :
    List.filter Event.isOllamaCall (show_time g) = [] := by
  simp [show_time, Event.isOllamaCall, List.filter]

theorem whisper_trace_filter_ollama (g : GameTranslator) (env : Env) :
    List.filter Event.isOllamaCall (whisper_cpp_transcription g env).2 = [] := by
  unfold whisper_cpp_transcription
  cases hp : g.pre_recorded with
  | false => simp
  | true =>
    cases env.whisperRun with
    | ok out =>
        simp only [hp, Bool.not_true, Bool.false_eq_true, if_false]
        cases env.files.lookup (result_file g) with
        | none =>
            simp [Event.isOllamaCall, whisper_command, whisper_path, List.filter]
        | some content =>
            simp [Event.isOllamaCall, whisper_command, whisper_path, List.filter]
    | nonzeroExit =>
        simp [hp, Event.isOllamaCall, whisper_command, whisper_path, List.filter]
    | spawnFailure =>
        simp [hp, Event.isOllamaCall, whisper_command, whisper_path, List.filter]

theorem llama_trace_filter_ollama (g : GameTranslator) (text : String) (env : Env) :
    List.filter Event.isOllamaCall (llama_translation g text env).2 =
      [.procCall (llama_command g text)] := by
  unfold llama_translation
  cases env.ollamaRun with
  | ok out => simp [Event.isOllamaCall, llama_command, List.filter]
  | nonzeroExit => simp [Event.isOllamaCall, llama_command, List.filter]
  | spawnFailure => simp [Event.isOllamaCall, llama_command, List.filter]

/-! ### Claims -/

/-- C1: if the transcription stage returns empty text, the translation
stage (`llama_translation`) is never invoked (no ollama process call
appears in the run trace) and `translate` returns the empty string. -/
theorem C1_empty_transcription_short_circuit (g : GameTranslator) (env : Env)
    (hm : g.transcription_model = "whisper_cpp")
    (h : (whisper_cpp_transcription g env).1 = .ok "") :
    (translate g env).1 = .ok "" ∧
      List.filter Event.isOllamaCall (translate g env).2.2 = [] := by
  have hfilter := whisper_trace_filter_ollama g env
  rcases hp : whisper_cpp_transcription g env with ⟨r, t⟩
  rw [hp] at h hfilter
  simp only at h hfilter
  subst h
  constructor
  · simp [translate, hm, hp]
  · simp [translate, hm, hp, List.filter_append, hfilter,
      show_translator_info_filter_ollama, Event.isOllamaCall, List.filter]

/-- C2: if the transcription stage returns non-empty text `t`, the
translation stage is invoked exactly once (exactly one ollama process call
in the trace), its command embeds the prompt
`"Translate the following text to <outputLanguage>: <t>"`, and `translate`
returns the translation stage's result. -/
theorem C2_nonempty_invokes_llama_once (g : GameTranslator) (env : Env) (t : String)
    (hm : g.transcription_model = "whisper_cpp")
    (h : (whisper_cpp_transcription g env).1 = .ok t) (hne : t ≠ "") :
    (translate g env).1 = (llama_translation g t env).1 ∧
      List.filter Event.isOllamaCall (translate g env).2.2 =
        [.procCall (llama_command g t)] ∧
      llama_command g t = ["ollama", "run", "llama3",
        "Translate the following text to " ++ g.output_language ++ ": " ++ t] := by
  have hwf := whisper_trace_filter_ollama g env
  rcases hp : whisper_cpp_transcription g env with ⟨r, tr⟩
  rw [hp] at h hwf
  simp only at h hwf
  subst h
  have hlf := llama_trace_filter_ollama g t env
  rcases hl : llama_translation g t env with ⟨rl, t2⟩
  rw [hl] at hlf
  simp only at hlf
  refine ⟨?_, ?_, rfl⟩
  · cases rl with
    | error e => simp [translate, hm, hp, hne, hl]
    | ok translation => simp [translate, hm, hp, hne, hl]
  · cases rl with
    | error e =>
        simp [translate, hm, hp, hne, hl, List.filter_append, hwf, hlf,
          show_translator_info_filter_ollama]
    | ok translation =>
        simp [translate, hm, hp, hne, hl, List.filter_append, hwf, hlf,
          show_translator_info_filter_ollama, show_time_filter_ollama]

/-- C3: when the engine identifier is not `"whisper_cpp"`, `translate`
fails with the unsupported-engine `ValueError` and the run trace contains
no external process invocation at all. -/
theorem C3_unsupported_engine_fails_fast (g : GameTranslator) (env : Env)
    (hm : g.transcription_model ≠ "whisper_cpp") :
    (translate g env).1 = .error (.valueError unsupported_engine_msg) ∧
      List.filter Event.isProcCall (translate g env).2.2 = [] := by
  constructor
  · simp [translate, hm]
  · simp [translate, hm, show_translator_info_filter_proc]

/-- C4 counterexample: with a spawn failure of the whisper process, the
transcription stage does not return empty text — the `OSError` is not
caught by the `except subprocess.CalledProcessError` clause, so it
propagates and terminates the pipeline, contradicting the claim that every
external process failure (including failure to spawn) is recovered into
empty text. -/
theorem C4_counterexample :
    (whisper_cpp_transcription sampleTranslator spawnFailEnv).1 = .error .oSError ∧
      (whisper_cpp_transcription sampleTranslator spawnFailEnv).1 ≠ .ok "" ∧
      (translate sampleTranslator spawnFailEnv).1 = .error .oSError := by
  refine ⟨rfl, ?_, rfl⟩
  rw [show (whisper_cpp_transcription sampleTranslator spawnFailEnv).1 =
    .error .oSError from rfl]
  simp

/-- C4 amended: for every non-zero exit of the external process in either
stage, the failing stage prints an error message and returns empty text,
and no exception from that stage terminates the pipeline; a spawn failure,
in contrast, is not recovered. -/
theorem C4_nonzero_exit_recovered (g : GameTranslator) (env : Env)
    (hpre : g.pre_recorded = true) :
    (env.whisperRun = .nonzeroExit →
      (whisper_cpp_transcription g env).1 = .ok "" ∧
      Event.printed whisper_error_msg ∈ (whisper_cpp_transcription g env).2) ∧
    (env.ollamaRun = .nonzeroExit → ∀ text,
      (llama_translation g text env).1 = .ok "" ∧
      Event.printed llama_error_msg ∈ (llama_translation g text env).2) ∧
    (g.transcription_model = "whisper_cpp" →
      (env.whisperRun = .nonzeroExit → (translate g env).1 = .ok "") ∧
      (∀ t, (whisper_cpp_transcription g env).1 = .ok t → t ≠ "" →
        env.ollamaRun = .nonzeroExit → (translate g env).1 = .ok "")) := by
  refine ⟨?_, ?_, ?_⟩
  · intro hw
    simp [whisper_cpp_transcription, hpre, hw]
  · intro ho text
    simp [llama_translation, ho]
  · intro hm
    constructor
    · intro hw
      simp [translate, hm, whisper_cpp_transcription, hpre, hw]
    · intro t ht htne ho
      rcases hp : whisper_cpp_transcription g env with ⟨r, tr⟩
      rw [hp] at ht
      simp only at ht
      subst ht
      simp [translate, hm, hp, htne, llama_translation, ho]

/-- C4 witness: instantiation of the amended claim at a concrete
configuration where both external processes exit non-zero. -/
theorem C4_nonzero_exit_recovered_witness :
    (nonzeroExitEnv.whisperRun = .nonzeroExit →
      (whisper_cpp_transcription sampleTranslator nonzeroExitEnv).1 = .ok "" ∧
      Event.printed whisper_error_msg ∈
        (whisper_cpp_transcription sampleTranslator nonzeroExitEnv).2) ∧
    (nonzeroExitEnv.ollamaRun = .nonzeroExit → ∀ text,
      (llama_translation sampleTranslator text nonzeroExitEnv).1 = .ok "" ∧
      Event.printed llama_error_msg ∈
        (llama_translation sampleTranslator text nonzeroExitEnv).2) ∧
    (sampleTranslator.transcription_model = "whisper_cpp" →
      (nonzeroExitEnv.whisperRun = .nonzeroExit →
        (translate sampleTranslator nonzeroExitEnv).1 = .ok "") ∧
      (∀ t, (whisper_cpp_transcription sampleTranslator nonzeroExitEnv).1 = .ok t →
        t ≠ "" → nonzeroExitEnv.ollamaRun = .nonzeroExit →
        (translate sampleTranslator nonzeroExitEnv).1 = .ok "")) :=
  C4_nonzero_exit_recovered sampleTranslator nonzeroExitEnv rfl

/-- C5 counterexample: on the empty-transcription short-circuit the
pipeline returns before the `elapsed_time` assignment, so the field keeps
its construction value `0` instead of being written with end minus start —
contradicting the claim that it is written at the end of every run,
including the short-circuit. -/
theorem C5_counterexample :
    (translate sampleTranslator nonzeroExitEnv).1 = .ok "" ∧
      (translate sampleTranslator nonzeroExitEnv).2.1.elapsed_time = 0 ∧
      (translate sampleTranslator nonzeroExitEnv).2.1.elapsed_time ≠
        nonzeroExitEnv.endTime - nonzeroExitEnv.startTime := by
  refine ⟨rfl, rfl, ?_⟩
  decide

/-- C5 amended: `elapsed_time` is written, with value end minus start,
exactly on runs that reach the translation stage and complete it without
an uncaught exception (even when the translation result is empty); on the
short-circuit, the unsupported-engine path and every exception path the
field is left unchanged, and construction initialises it to `0`. -/
theorem C5_elapsed_time_written (g : GameTranslator) (env : Env) :
    (translate g env).2.1.elapsed_time =
      (if completes_both_stages g env then env.endTime - env.startTime
       else g.elapsed_time) ∧
    ∀ tm fp pr il ol, (GameTranslator.init tm fp pr il ol).elapsed_time = 0 := by
  refine ⟨?_, fun _ _ _ _ _ => rfl⟩
  by_cases hm : g.transcription_model = "whisper_cpp"
  · rcases hp : whisper_cpp_transcription g env with ⟨r, tr⟩
    cases r with
    | error e => simp [translate, completes_both_stages, hm, hp]
    | ok t =>
        by_cases ht : t = ""
        · subst ht
          simp [translate, completes_both_stages, hm, hp]
        · cases ho : env.ollamaRun with
          | ok out =>
              simp [translate, completes_both_stages, hm, hp, ht,
                llama_translation, ho]
          | nonzeroExit =>
              simp [translate, completes_both_stages, hm, hp, ht,
                llama_translation, ho]
          | spawnFailure =>
              simp [translate, completes_both_stages, hm, hp, ht,
                llama_translation, ho]
  · simp [translate, completes_both_stages, hm]

/-- C6: when the whisper process exits successfully but the expected
result file is absent, the `FileNotFoundError` of the `open` call is not
caught (only `subprocess.CalledProcessError` is), so the failure
propagates out of the transcription stage — and out of `translate` — as
an unhandled error rather than being converted into empty text. -/
theorem C6_missing_result_file_propagates (g : GameTranslator) (env : Env)
    (out : String) (hpre : g.pre_recorded = true) (hw : env.whisperRun = .ok out)
    (habs : env.files.lookup (result_file g) = none) :
    (whisper_cpp_transcription g env).1 = .error .fileNotFoundError ∧
      (g.transcription_model = "whisper_cpp" →
        (translate g env).1 = .error .fileNotFoundError) := by
  have hstage : (whisper_cpp_transcription g env).1 = .error .fileNotFoundError := by
    simp [whisper_cpp_transcription, hpre, hw, habs]
  refine ⟨hstage, fun hm => ?_⟩
  rcases hp : whisper_cpp_transcription g env with ⟨r, tr⟩
  rw [hp] at hstage
  simp only at hstage
  subst hstage
  simp [translate, hm, hp]

/-- C6 witness: instantiation at a concrete configuration whose
environment has a successful whisper run and an empty file system. -/
theorem C6_missing_result_file_propagates_witness :
    (whisper_cpp_transcription sampleTranslator missingFileEnv).1 =
        .error .fileNotFoundError ∧
      (sampleTranslator.transcription_model = "whisper_cpp" →
        (translate sampleTranslator missingFileEnv).1 =
          .error .fileNotFoundError) :=
  C6_missing_result_file_propagates sampleTranslator missingFileEnv "" rfl rfl rfl

/-- C7: with `pre_recorded` false the transcription stage signals the
`NotImplementedError` and its trace is empty — in particular no external
process is spawned before the failure. -/
theorem C7_live_capture_not_implemented (g : GameTranslator) (env : Env)
    (h : g.pre_recorded = false) :
    (whisper_cpp_transcription g env).1 =
        .error (.notImplementedError not_implemented_msg) ∧
      (whisper_cpp_transcription g env).2 = [] := by
  simp [whisper_cpp_transcription, h]

/-- C7 witness: instantiation at a concrete configuration constructed with
`prerecorded` false. -/
theorem C7_live_capture_not_implemented_witness :
    (whisper_cpp_transcription
        (GameTranslator.init "whisper_cpp" "audio.wav" false "english" "russian")
        happyEnv).1 = .error (.notImplementedError not_implemented_msg) ∧
      (whisper_cpp_transcription
        (GameTranslator.init "whisper_cpp" "audio.wav" false "english" "russian")
        happyEnv).2 = [] :=
  C7_live_capture_not_implemented
    (GameTranslator.init "whisper_cpp" "audio.wav" false "english" "russian")
    happyEnv rfl

/-- C8: on success the transcription stage returns exactly the contents of
the result file stripped of leading and trailing whitespace, and the
translation stage returns exactly the captured standard output stripped of
leading and trailing whitespace — no other transformation. -/
theorem C8_trimmed_outputs (g : GameTranslator) (env : Env) (s o out : String)
    (hpre : g.pre_recorded = true) (hw : env.whisperRun = .ok o)
    (hf : env.files.lookup (result_file g) = some s)
    (ho : env.ollamaRun = .ok out) :
    (whisper_cpp_transcription g env).1 = .ok (pyStrip s) ∧
      ∀ text, (llama_translation g text env).1 = .ok (pyStrip out) := by
  constructor
  · simp [whisper_cpp_transcription, hpre, hw, hf]
  · intro text
    simp [llama_translation, ho]

/-- C8 witness: instantiation at a concrete environment whose result file
holds `" Hello world "` and whose ollama output is `" Привет мир "`; both
come back trimmed. -/
theorem C8_trimmed_outputs_witness :
    (whisper_cpp_transcription sampleTranslator happyEnv).1 =
        .ok (pyStrip " Hello world ") ∧
      ∀ text, (llama_translation sampleTranslator text happyEnv).1 =
        .ok (pyStrip " Привет мир ") :=
  C8_trimmed_outputs sampleTranslator happyEnv " Hello world " "" " Привет мир "
    rfl rfl rfl rfl

/-- C9: construction lowercases both language identifiers, the whisper
command uses the stored (lowercased) input language as its `-l` argument,
and the llama prompt embeds the stored (lowercased) output language. -/
theorem C9_languages_lowercased (tm fp : String) (pr : Bool) (il ol text : String) :
    (GameTranslator.init tm fp pr il ol).input_language = il.toLower ∧
      (GameTranslator.init tm fp pr il ol).output_language = ol.toLower ∧
      whisper_command (GameTranslator.init tm fp pr il ol) =
        [whisper_path, "-m", model_path, "-f", fp, "-l", il.toLower, "-otxt"] ∧
      llama_command (GameTranslator.init tm fp pr il ol) text =
        ["ollama", "run", "llama3",
          "Translate the following text to " ++ ol.toLower ++ ": " ++ text] :=
  ⟨rfl, rfl, rfl, rfl⟩

/-- Helper: with the recognized engine, no run of `translate` can raise
the `ValueError` — transcription-stage exceptions are `NotImplementedError`
or `OSError` flavours and translation-stage exceptions are the `OSError`
of a spawn failure. -/
theorem translate_no_valueError_of_whisper (g : GameTranslator) (env : Env)
    (hm : g.transcription_model = "whisper_cpp") (msg : String) :
    (translate g env).1 ≠ .error (.valueError msg) := by
  rcases hp : whisper_cpp_transcription g env with ⟨r, tr⟩
  have hr : r ≠ .error (.valueError msg) := by
    intro hr
    subst hr
    revert hp
    unfold whisper_cpp_transcription
    cases g.pre_recorded with
    | false => simp
    | true =>
        cases env.whisperRun with
        | ok out =>
            cases env.files.lookup (result_file g) with
            | none => simp
            | some content => simp
        | nonzeroExit => simp
        | spawnFailure => simp
  cases r with
  | error e =>
      intro hcontra
      apply hr
      have htr : (translate g env).1 = Except.error e := by simp [translate, hm, hp]
      rw [← htr]
      exact hcontra
  | ok t =>
      by_cases ht : t = ""
      · subst ht
        simp [translate, hm, hp]
      · cases ho : env.ollamaRun with
        | ok out => simp [translate, hm, hp, ht, llama_translation, ho]
        | nonzeroExit => simp [translate, hm, hp, ht, llama_translation, ho]
        | spawnFailure => simp [translate, hm, hp, ht, llama_translation, ho]

/-- C10: argparse restricts `--transcription_model` to the single choice
`"whisper_cpp"`, so every translator constructed through `main` has that
engine and the unsupported-engine `ValueError` branch of `translate` is
unreachable from the CLI; conversely that branch is only reachable by
constructing `GameTranslator` directly with another engine identifier. -/
theorem C10_cli_restricts_engine (a : CliArgs) (g : GameTranslator)
    (h : main_translator a = some g) :
    g.transcription_model = "whisper_cpp" ∧
      (∀ env msg, (translate g env).1 ≠ .error (.valueError msg)) ∧
      (∀ g2 : GameTranslator, ∀ env msg,
        (translate g2 env).1 = .error (.valueError msg) →
        g2.transcription_model ≠ "whisper_cpp") := by
  have hmodel : g.transcription_model = "whisper_cpp" := by
    revert h
    unfold main_translator parse_transcription_model transcription_model_choices
    by_cases hc : a.transcription_model = "whisper_cpp"
    · intro h
      simp [hc] at h
      rw [← h]
      rfl
    · intro h
      simp [hc] at h
  refine ⟨hmodel, fun env msg => translate_no_valueError_of_whisper g env hmodel msg,
    fun g2 env msg heq hm2 => translate_no_valueError_of_whisper g2 env hm2 msg heq⟩

/-- C10 witness: instantiation at the concrete CLI argument set that
selects `whisper_cpp`. -/
theorem C10_cli_restricts_engine_witness :
    sampleTranslator.transcription_model = "whisper_cpp" ∧
      (∀ env msg, (translate sampleTranslator env).1 ≠ .error (.valueError msg)) ∧
      (∀ g2 : GameTranslator, ∀ env msg,
        (translate g2 env).1 = .error (.valueError msg) →
        g2.transcription_model ≠ "whisper_cpp") :=
  C10_cli_restricts_engine
    { file := "audio.wav", transcription_model := "whisper_cpp",
      pre_recorded := true, input_language := "English",
      output_language := "Russian" }
    sampleTranslator rfl

/-- C1 witness: instantiation at a concrete run whose whisper process
exits non-zero, so the transcription stage returns empty text. -/
theorem C1_empty_transcription_short_circuit_witness :
    (translate sampleTranslator nonzeroExitEnv).1 = .ok "" ∧
      List.filter Event.isOllamaCall (translate sampleTranslator nonzeroExitEnv).2.2 = [] :=
  C1_empty_transcription_short_circuit sampleTranslator nonzeroExitEnv rfl rfl

/-- C2 witness: instantiation at a concrete run whose transcription stage
returns `"Hello world"`. -/
theorem C2_nonempty_invokes_llama_once_witness :
    (translate sampleTranslator happyEnv).1 =
        (llama_translation sampleTranslator "Hello world" happyEnv).1 ∧
      List.filter Event.isOllamaCall (translate sampleTranslator happyEnv).2.2 =
        [.procCall (llama_command sampleTranslator "Hello world")] ∧
      llama_command sampleTranslator "Hello world" = ["ollama", "run", "llama3",
        "Translate the following text to " ++ sampleTranslator.output_language ++
          ": " ++ "Hello world"] :=
  C2_nonempty_invokes_llama_once sampleTranslator happyEnv "Hello world" rfl rfl
    (by decide)

/-- C3 witness: instantiation at a concrete translator constructed with
the unrecognized engine identifier `"unknown_engine"`. -/
theorem C3_unsupported_engine_fails_fast_witness :
    (translate (GameTranslator.init "unknown_engine" "audio.wav" true
        "english" "russian") happyEnv).1 =
        .error (.valueError unsupported_engine_msg) ∧
      List.filter Event.isProcCall
        (translate (GameTranslator.init "unknown_engine" "audio.wav" true
          "english" "russian") happyEnv).2.2 = [] :=
  C3_unsupported_engine_fails_fast
    (GameTranslator.init "unknown_engine" "audio.wav" true "english" "russian")
    happyEnv (by decide)

end OGTaudio
